import Mathlib

/-!
Shallow embedding of the request-handling pipeline of the proxy-downloader
program (src/main.rs) and verification of its specification.

Modelling conventions:
* Rust `String`s are Lean `String`s; Rust `str::split(pat)` is `rsplit`
  (both return the list of segments between non-overlapping occurrences of the
  pattern, and both return a one-element list when the pattern is absent, so in
  particular they never return an empty list).
* A Rust slice index `v[i]` that can be out of bounds is modelled with `v[i]?`;
  the `none` result models the index-out-of-bounds panic of the handler thread.
  Functions that can panic therefore return `Option`; `Outcome.panicked` in the
  handler marks that the thread died by panic instead of returning.
* The side effects of one `handle_connection` call are recorded as a trace of
  `Event`s (bytes written to the client socket, outbound origin connections,
  origin-socket writes, log-file appends, cache-file writes), together with the
  final state of the cache directory, modelled as a map from file name to the
  `Option`al contents of the file.
* External inputs that the code obtains from the OS are oracle fields of `Env`:
  the timestamp string, whether opening/writing the log file succeeds, the
  cache-directory contents, whether the origin TCP connect succeeds, and the
  string that `read_to_string` produced from the origin socket.
* The gzip codec lives in the external `flate2` crate, not in this repository.
  Modelled from the spec: `gzDec` is the decoder (`some` on success, `none` on
  a decode error) and `gzDecPartial` gives the bytes that `read_to_end` had
  already placed in the output buffer when it failed, since the code ignores
  the error value of `decoder.read_to_end(&mut buffer)` and keeps using
  `buffer`.
-/

namespace Proxy

/-- One observable side effect of `handle_connection`. -/
inductive Event where
  | logWrite (entry : String)
  | clientWrite (data : String)
  | originConnect (host : String)
  | originWrite (data : String)
  | cacheWrite (key : String) (data : String)
deriving DecidableEq

/-- Whether the handler thread returned normally or died in a panic. -/
inductive Outcome where
  | ok
  | panicked
deriving DecidableEq

/-- Oracle inputs of one `handle_connection` run (see the module docstring). -/
structure Env where
  now : String
  logOk : Bool
  cache : String → Option String
  connectOk : Bool
  originResponse : String
  gzDec : String → Option String
  gzDecPartial : String → String

/-- Result of one `handle_connection` run: the event trace, the outcome, and
the cache directory afterwards. -/
structure HResult where
  events : List Event
  outcome : Outcome
  cacheAfter : String → Option String

/-- Scanner of `rsplit`: walk the input one character at a time, keeping the
characters consumed since the last emitted segment in reverse order in `acc`;
whenever the reversed separator `rsep` is a prefix of the reversed consumed
characters, the separator has just been matched, so emit the segment before
it and start a new one. Structural recursion on the input list, so the
kernel can evaluate it inside `rfl` and `decide` proofs. -/
def splitGo (rsep : List Char) : List Char → List Char → List (List Char)
  | [], acc => [acc.reverse]
  | c :: rest, acc =>
    if rsep.isPrefixOf (c :: acc) then
      ((c :: acc).drop rsep.length).reverse :: splitGo rsep rest []
    else
      splitGo rsep rest (c :: acc)

/-- Model of Rust `str::split` with a non-empty string pattern: the list of
segments between consecutive non-overlapping leftmost occurrences of `sep`,
never empty (a string without the separator yields the one-element list of
itself, and both endpoints yield empty segments when the separator sits at
the ends). Agrees with `String.splitOn`, but is kernel-evaluable. -/
def rsplit (s sep : String) : List String :=
  if sep.data = [] then [s]
  else (splitGo sep.data.reverse s.data []).map fun l => ⟨l⟩

/-- Rust `check_version` (src/main.rs:28-36): the version must be the literal
string HTTP/1.1. -/
def check_version (version : String) : Bool :=
  if version != "HTTP/1.1" then false else true

/-- Rust `parse_request` (src/main.rs:49-66). `lines[0]` is always in bounds
because `split` never yields an empty vector (modelled with `headD`); the
unchecked indexes `words[0]`, `words[1]`, `words[2]` panic when the request
line has fewer than three space-separated tokens, modelled by `none`. -/
def parse_request (request : String) : Option (String × String × String) :=
  let lines := rsplit request "\r\n"
  let first_line := lines.headD ""
  let words := rsplit first_line " "
  match words[0]?, words[1]?, words[2]? with
  | some method, some url, some version => some (method, url, version)
  | _, _, _ => none

/-- Rust `get_file_name` (src/main.rs:69-78): `parts[parts.len() - 1]` is the
last element of a never-empty vector, modelled with `getLastD`. -/
def get_file_name (url : String) : String :=
  let parts := rsplit url "/"
  parts.getLastD ""

/-- Rust `get_server_name` (src/main.rs:80-93): `parts[2]` guarded by the
length check, modelled with `getD`. -/
def get_server_name (url : String) : String :=
  let parts := rsplit url "/"
  if parts.length < 3 then "" else parts.getD 2 ""

/-- Rust `log_request` (src/main.rs:95-120), the log record it builds: the
timestamp line, then the request text truncated at the first occurrence of
the Accept-Encoding header name. Whether the file I/O inside `log_request`
succeeds is the `logOk` oracle of `Env`; on failure the code panics through
`expect` inside `open_file` (src/main.rs:45) or on `write_all`
(src/main.rs:114), so `log_request` never returns an `Err` value. -/
def log_request (now request : String) : String :=
  let stripped := (rsplit request "Accept-Encoding:").headD ""
  now ++ "\n" ++ stripped ++ "\n"

/-- Rust `check_cache` (src/main.rs:122-133): the file exists under the cache
directory. -/
def check_cache (cache : String → Option String) (file_name : String) : Bool :=
  (cache file_name).isSome

/-- Rust `open_file` (src/main.rs:38-46) followed by `write_all`
(src/main.rs:298 and 314): `open_file` opens with read+write+append+create
and never truncates, so a missing file is created empty and the written bytes
land after any bytes already stored; the new contents of `key` are the old
contents (empty if the file was absent) followed by `data`. -/
def cache_write (cache : String → Option String) (key data : String) :
    String → Option String :=
  fun k => if k == key then some ((cache key).getD "" ++ data) else cache k

/-- The header scan of `handle_connection` (src/main.rs:252-278): walk the
lines of the header block, split each on the two-character string ": ", and
remember the last Content-Encoding and Content-Length values seen. `words[1]`
(src/main.rs:270 and 276) is unchecked, so a line that is exactly the bare
header name with no ": " separator panics, modelled by `none`. -/
def scan_headers : List String → String → String → Option (String × String)
  | [], ce, cl => some (ce, cl)
  | line :: rest, ce, cl =>
    let words := rsplit line ": "
    let first_word := words.headD ""
    if first_word == "Content-Encoding" then
      match words[1]? with
      | none => none
      | some v => scan_headers rest v cl
    else if first_word == "Content-Length" then
      match words[1]? with
      | none => none
      | some v => scan_headers rest ce v
    else
      scan_headers rest ce cl

/-- Rust `handle_connection` (src/main.rs:135-331), from the request string
returned by `get_request` onward. Mirrors the source control flow:
parse (panics on a short request line), version check, logging (panics when
the log file cannot be opened or written, because of the `expect`s inside
`log_request`), empty-file-name and empty-server-name aborts, the cache-hit
short circuit (src/main.rs:183-209), and otherwise the origin fetch: connect
to port 80, send the synthesized request, extract the status code as the
second space-token of the whole response (src/main.rs:231, panics when there
is no second token), non-200 pass-through (src/main.rs:236-243), the split of
the response on the blank-line boundary with the unchecked `parts[1]`
(src/main.rs:246-250, panics when the boundary is absent), the header scan,
and the gzip / plain store-and-serve branches (src/main.rs:281-319). The
cache-file `open_file` calls on the hit and store paths use `expect`
internally, so their `Err` match arms (src/main.rs:192, 292, 308) are dead
code; the model treats those opens as succeeding. -/
def handle_connection (env : Env) (request : String) : HResult :=
  match parse_request request with
  | none => ⟨[], .panicked, env.cache⟩
  | some (method, url, version) =>
  if !check_version version then ⟨[], .ok, env.cache⟩
  else if !env.logOk then ⟨[], .panicked, env.cache⟩
  else
  let logEv : List Event := [.logWrite (log_request env.now request)]
  let server_name := get_server_name url
  let file_name := get_file_name url
  if file_name == "" then ⟨logEv, .ok, env.cache⟩
  else if server_name == "" then ⟨logEv, .ok, env.cache⟩
  else if check_cache env.cache file_name then
    let contents := (env.cache file_name).getD ""
    ⟨logEv ++ [.clientWrite (version ++ " 200 OK\r\n\r\n"), .clientWrite contents],
      .ok, env.cache⟩
  else if !env.connectOk then ⟨logEv, .ok, env.cache⟩
  else
  let origin_request := method ++ " " ++ url ++ " HTTP/1.1\r\nHost: " ++ server_name ++
      "\r\nConnection: keep-alive\r\nAccept-Encoding: gzip, deflate\r\n\r\n"
  let ev0 := logEv ++ [.originConnect server_name, .originWrite origin_request]
  let response := env.originResponse
  match (rsplit response " ")[1]? with
  | none => ⟨ev0, .panicked, env.cache⟩
  | some status_code =>
  if status_code != "200" then
    ⟨ev0 ++ [.clientWrite response], .ok, env.cache⟩
  else
  let parts := rsplit response "\r\n\r\n"
  match parts[1]? with
  | none => ⟨ev0, .panicked, env.cache⟩
  | some body =>
  let headers := parts.headD ""
  match scan_headers (rsplit headers "\r\n") "" "" with
  | none => ⟨ev0, .panicked, env.cache⟩
  | some (content_encoding, _content_length) =>
  if content_encoding == "gzip" then
    let buffer := match env.gzDec body with
      | some b => b
      | none => env.gzDecPartial body
    ⟨ev0 ++ [.cacheWrite file_name buffer,
             .clientWrite (version ++ " 200 OK\r\n\r\n"),
             .clientWrite buffer],
      .ok, cache_write env.cache file_name buffer⟩
  else
    ⟨ev0 ++ [.cacheWrite file_name body,
             .clientWrite (version ++ " 200 OK\r\n\r\n"),
             .clientWrite body],
      .ok, cache_write env.cache file_name body⟩

/-- The payloads of the client-socket writes of a trace, in order. -/
def client_bytes (events : List Event) : List String :=
  events.filterMap fun e =>
    match e with
    | .clientWrite d => some d
    | _ => none

/-- The payloads of the log-file appends of a trace, in order. -/
def log_writes (events : List Event) : List String :=
  events.filterMap fun e =>
    match e with
    | .logWrite d => some d
    | _ => none

/-- The hosts of the outbound origin connections of a trace, in order. -/
def origin_connects (events : List Event) : List String :=
  events.filterMap fun e =>
    match e with
    | .originConnect h => some h
    | _ => none

/-- The cache-file writes of a trace, in order. -/
def cache_writes (events : List Event) : List (String × String) :=
  events.filterMap fun e =>
    match e with
    | .cacheWrite k d => some (k, d)
    | _ => none

/-- An empty cache directory. -/
def emptyCache : String → Option String := fun _ => none

/-- A cache directory that holds only the file named f, with contents hello. -/
def cacheHitF : String → Option String :=
  fun k => if k == "f" then some "hello" else none

/-- A cache directory that holds only the file named f, with contents A. -/
def cacheWithA : String → Option String :=
  fun k => if k == "f" then some "A" else none

/-- Baseline environment: empty cache, working log file, working origin
connect, a decoder that always fails leaving an empty buffer. Individual
scenarios override the relevant fields. -/
def envEmpty : Env :=
  { now := "2024-01-01 00:00:00", logOk := true, cache := emptyCache,
    connectOk := true, originResponse := "",
    gzDec := fun _ => none, gzDecPartial := fun _ => "" }

/-- A well-formed request for http://h/f. -/
def reqOk : String := "GET http://h/f HTTP/1.1\r\n\r\n"

/-- A well-formed request for http://h/f.txt. -/
def reqTxt : String := "GET http://h/f.txt HTTP/1.1\r\n\r\n"

/-- Origin response that has a status line but no blank-line boundary. -/
def envNoBoundary : Env := { envEmpty with originResponse := "HTTP/1.1 200 OK" }

/-- Origin response whose text has no second space-delimited token. -/
def envNoStatusToken : Env := { envEmpty with originResponse := "HTTPOK" }

/-- Gzip scenario with an identity codec (a codec satisfying the round-trip
property of the spec) and a compressed body that contains the blank-line
boundary: the origin body, everything after the first blank line of the
response, is the eight-character string AB-CRLF-CRLF-CD. -/
def envGzBoundary : Env :=
  { envEmpty with
    originResponse := "HTTP/1.1 200 OK\r\nContent-Encoding: gzip\r\n\r\nAB\r\n\r\nCD",
    gzDec := fun s => some s }

/-- Gzip scenario whose body fails to decompress: the decoder rejects every
input and leaves an empty output buffer, as flate2 does when the gzip magic
bytes are wrong. -/
def envGzFail : Env :=
  { envEmpty with
    originResponse := "HTTP/1.1 200 OK\r\nContent-Encoding: gzip\r\n\r\nXX",
    gzDec := fun _ => none, gzDecPartial := fun _ => "" }

/-- Origin responds 404 with a body. -/
def env404 : Env :=
  { envEmpty with originResponse := "HTTP/1.1 404 Not Found\r\n\r\nnope" }

/-- Cache-hit scenario: file f is already cached. -/
def envHit : Env := { envEmpty with cache := cacheHitF }

/-- Cache-hit scenario in which the log file cannot be opened or written. -/
def envHitLogFail : Env := { envHit with logOk := false }

/-- A request whose protocol version is HTTP/1.0, not the supported one. -/
def reqOld : String := "GET http://a/b HTTP/1.0\r\n\r\n"

/-- C1: the claim says `parse_request` is total with no reachable panic. It is
not: on a request whose first line has fewer than three space-separated
tokens (here the empty string and the line GET), the unchecked index
`words[1]` at src/main.rs:61 is out of bounds and the handler thread dies in
a panic (`Option.none` / `Outcome.panicked` in the model) instead of
signalling a parse failure that the handler turns into an abort. -/
theorem C1_parse_panics_on_short_request_line :
    parse_request "" = none ∧
    parse_request "GET\r\n" = none ∧
    (handle_connection envEmpty "GET\r\n").outcome = Outcome.panicked ∧
    (handle_connection envEmpty "GET\r\n").events = [] :=
  ⟨rfl, rfl, rfl, rfl⟩

/-- C2: the claim says that an origin response lacking the blank-line
boundary, or whose text lacks a second space-delimited token, leads to a
signalled parse failure and a clean abort. Instead the unchecked indexes
`parts[1]` (src/main.rs:250) and `split(" ")[1]` (src/main.rs:231) are out of
bounds and the handler thread dies in a panic. -/
theorem C2_missing_boundary_panics :
    (rsplit envNoBoundary.originResponse "\r\n\r\n")[1]? = none ∧
    (handle_connection envNoBoundary reqOk).outcome = Outcome.panicked ∧
    (rsplit envNoStatusToken.originResponse " ")[1]? = none ∧
    (handle_connection envNoStatusToken reqOk).outcome = Outcome.panicked :=
  ⟨rfl, rfl, rfl, rfl⟩

/-- C3: the claim says that for every byte sequence B, a 200 response with
Content-Encoding gzip whose body is a compression of B leads to exactly B
being cached and sent. It fails when the compressed body contains the
blank-line boundary: the code splits the whole response on CRLFCRLF and
keeps only `parts[1]` (src/main.rs:246-250), so the decoder sees only the
part of the body before its first internal boundary. Here the codec is the
identity (which satisfies the round-trip property), the origin body is
AB-CRLF-CRLF-CD (the compression of B = AB-CRLF-CRLF-CD), yet only AB is
decoded, cached and served. -/
theorem C3_gzip_body_truncated_at_boundary :
    envGzBoundary.gzDec "AB\r\n\r\nCD" = some "AB\r\n\r\nCD" ∧
    envGzBoundary.originResponse =
      "HTTP/1.1 200 OK\r\nContent-Encoding: gzip" ++ "\r\n\r\n" ++ "AB\r\n\r\nCD" ∧
    (handle_connection envGzBoundary reqOk).cacheAfter "f" = some "AB" ∧
    client_bytes (handle_connection envGzBoundary reqOk).events =
      ["HTTP/1.1 200 OK\r\n\r\n", "AB"] ∧
    ("AB" : String) ≠ "AB\r\n\r\nCD" :=
  ⟨rfl, rfl, rfl, rfl, by decide⟩

/-- C4: the claim says a gzip decompression failure aborts the request with
no cache write and no bytes sent to the client. Instead the code discards
the error of `decoder.read_to_end` (src/main.rs:286) and continues: the
handler returns normally, creates a cache entry holding the partial buffer
(empty here), and sends the 200 status line plus that buffer to the client,
even though the cache had no entry for the key before. -/
theorem C4_decode_failure_not_aborted :
    envGzFail.gzDec "XX" = none ∧
    envGzFail.cache "f" = none ∧
    (handle_connection envGzFail reqOk).outcome = Outcome.ok ∧
    (handle_connection envGzFail reqOk).cacheAfter "f" = some "" ∧
    client_bytes (handle_connection envGzFail reqOk).events =
      ["HTTP/1.1 200 OK\r\n\r\n", ""] :=
  ⟨rfl, rfl, rfl, rfl, rfl⟩

/-- C7 counterexample: `cache_write` does not truncate and replace an
existing blob. Writing B over a blob holding A stores AB, because
`open_file` (src/main.rs:38-46) opens with the append flag and never
truncates. -/
theorem C7_overwrite_counterexample :
    cache_write cacheWithA "f" "B" "f" = some "AB" ∧
    (some "AB" : Option String) ≠ some "B" :=
  ⟨rfl, by decide⟩

/-- C7 amended: the cache write creates the blob if absent, in which case the
stored bytes equal the written bytes; on an existing blob it appends, so the
stored bytes are the prior contents followed by the written bytes; other
keys are untouched. -/
theorem C7_cache_write_append_spec (cache : String → Option String)
    (key data : String) :
    cache_write cache key data key = some ((cache key).getD "" ++ data) ∧
    (cache key = none → cache_write cache key data key = some data) ∧
    ∀ k, k ≠ key → cache_write cache key data k = cache k := by
  refine ⟨by simp [cache_write], fun h => by simp [cache_write, h], fun k hk => ?_⟩
  simp [cache_write, hk]

/-- C7 witness: writing B under f into the empty cache stores exactly B at f
and leaves the absent key g absent. -/
theorem C7_cache_write_append_spec_witness :
    cache_write emptyCache "f" "B" "f" = some "B" ∧
    cache_write emptyCache "f" "B" "g" = none :=
  ⟨(C7_cache_write_append_spec emptyCache "f" "B").2.1 rfl,
   ((C7_cache_write_append_spec emptyCache "f" "B").2.2 "g" (by decide)).trans rfl⟩

/-- C8: the claim says a failure to open or write the log file is non-fatal
and the handler continues processing. Instead `open_file` panics via
`expect` (src/main.rs:45) and `log_request` panics via `expect` on
`write_all` (src/main.rs:114), so the `if let Err` recovery at
src/main.rs:157-160 is dead code: on a log failure the handler thread dies
with no further processing, and the same request in the same environment
with a working log file would have produced a client response. -/
theorem C8_log_failure_panics :
    envHitLogFail.logOk = false ∧
    (handle_connection envHitLogFail reqOk).outcome = Outcome.panicked ∧
    (handle_connection envHitLogFail reqOk).events = [] ∧
    client_bytes (handle_connection envHit reqOk).events =
      ["HTTP/1.1 200 OK\r\n\r\n", "hello"] :=
  ⟨rfl, rfl, rfl, rfl⟩

/-- C5: on a cache miss whose origin response has a status code other than
200 (the status code being the second space-delimited token the code
extracts at src/main.rs:231), the client receives exactly the raw origin
response — one client write holding the verbatim response text — no cache
write event occurs, the cache directory is unchanged, and the handler
returns normally. -/
theorem C5_non200_passthrough (env : Env)
    (request method url version status_code : String)
    (hp : parse_request request = some (method, url, version))
    (hv : version = "HTTP/1.1")
    (hlog : env.logOk = true)
    (hf : get_file_name url ≠ "")
    (hs : get_server_name url ≠ "")
    (hmiss : env.cache (get_file_name url) = none)
    (hconn : env.connectOk = true)
    (hstat : (rsplit env.originResponse " ")[1]? = some status_code)
    (hne : status_code ≠ "200") :
    client_bytes (handle_connection env request).events = [env.originResponse] ∧
    cache_writes (handle_connection env request).events = [] ∧
    (handle_connection env request).cacheAfter = env.cache ∧
    (handle_connection env request).outcome = Outcome.ok := by
  subst hv
  simp [handle_connection, hp, check_version, hlog, hf, hs, check_cache, hmiss,
    hconn, hstat, hne, client_bytes, cache_writes]

/-- C5 witness: a 404 origin response is relayed verbatim and the cache is
untouched. -/
theorem C5_non200_passthrough_witness :
    client_bytes (handle_connection env404 reqTxt).events =
      ["HTTP/1.1 404 Not Found\r\n\r\nnope"] ∧
    cache_writes (handle_connection env404 reqTxt).events = [] ∧
    (handle_connection env404 reqTxt).cacheAfter = env404.cache ∧
    (handle_connection env404 reqTxt).outcome = Outcome.ok :=
  C5_non200_passthrough env404 reqTxt "GET" "http://h/f.txt" "HTTP/1.1" "404"
    rfl rfl rfl (by decide) (by decide) rfl rfl rfl (by decide)

/-- C6: on a cache hit (the derived file name has an entry in the cache), the
handler serves the status line and the cached bytes to the client and never
opens an outbound connection to any origin host. -/
theorem C6_cache_hit_no_origin_connect (env : Env)
    (request method url version data : String)
    (hp : parse_request request = some (method, url, version))
    (hv : version = "HTTP/1.1")
    (hlog : env.logOk = true)
    (hf : get_file_name url ≠ "")
    (hs : get_server_name url ≠ "")
    (hhit : env.cache (get_file_name url) = some data) :
    origin_connects (handle_connection env request).events = [] ∧
    client_bytes (handle_connection env request).events =
      [version ++ " 200 OK\r\n\r\n", data] ∧
    (handle_connection env request).outcome = Outcome.ok := by
  subst hv
  simp [handle_connection, hp, check_version, hlog, hf, hs, check_cache, hhit,
    origin_connects, client_bytes]

/-- C6 witness: with file f cached as hello, the request for http://h/f is
answered from the cache with no origin connection. -/
theorem C6_cache_hit_no_origin_connect_witness :
    origin_connects (handle_connection envHit reqOk).events = [] ∧
    client_bytes (handle_connection envHit reqOk).events =
      ["HTTP/1.1" ++ " 200 OK\r\n\r\n", "hello"] ∧
    (handle_connection envHit reqOk).outcome = Outcome.ok :=
  C6_cache_hit_no_origin_connect envHit reqOk "GET" "http://h/f" "HTTP/1.1" "hello"
    rfl rfl rfl (by decide) (by decide) rfl

/-- C9: a request whose version differs from HTTP/1.1 is rejected before the
logging step (src/main.rs:151 precedes src/main.rs:157), so its trace is
empty; in particular no log record is appended for it. -/
theorem C9_version_reject_no_log (env : Env) (request method url version : String)
    (hp : parse_request request = some (method, url, version))
    (hv : version ≠ "HTTP/1.1") :
    (handle_connection env request).events = [] ∧
    log_writes (handle_connection env request).events = [] := by
  have hcv : check_version version = false := by
    simp [check_version, hv]
  simp [handle_connection, hp, hcv, log_writes]

/-- C9 witness: an HTTP/1.0 request leaves an empty trace and no log write. -/
theorem C9_version_reject_no_log_witness :
    (handle_connection envEmpty reqOld).events = [] ∧
    log_writes (handle_connection envEmpty reqOld).events = [] :=
  C9_version_reject_no_log envEmpty reqOld "GET" "http://a/b" "HTTP/1.0"
    rfl (by decide)

/-- C10: on a cache hit the handler only reads the cached file; the cache
directory after the request equals the cache directory before it, and the
trace holds no cache-write event. -/
theorem C10_cache_hit_preserves_cache (env : Env)
    (request method url version data : String)
    (hp : parse_request request = some (method, url, version))
    (hv : version = "HTTP/1.1")
    (hlog : env.logOk = true)
    (hf : get_file_name url ≠ "")
    (hs : get_server_name url ≠ "")
    (hhit : env.cache (get_file_name url) = some data) :
    (handle_connection env request).cacheAfter = env.cache ∧
    cache_writes (handle_connection env request).events = [] := by
  subst hv
  simp [handle_connection, hp, check_version, hlog, hf, hs, check_cache, hhit,
    cache_writes]

/-- C10 witness: serving the cached f leaves the cache directory unchanged. -/
theorem C10_cache_hit_preserves_cache_witness :
    (handle_connection envHit reqOk).cacheAfter = envHit.cache ∧
    cache_writes (handle_connection envHit reqOk).events = [] :=
  C10_cache_hit_preserves_cache envHit reqOk "GET" "http://h/f" "HTTP/1.1" "hello"
    rfl rfl rfl (by decide) (by decide) rfl

end Proxy
